import Mathlib

/-!
Verification development for the worker-side task execution runtime
(`task-sdk/src/airflow/sdk/execution_time/task_runner.py`).

The embedding translates the life-cycle state machine of `run`, the
outcome dispatch (`_handle_current_task_failed`, `_handle_trigger_dag_run`),
the XCom push/pull logic (`RuntimeTaskInstance.xcom_pull`,
`_push_xcom_if_needed`) and the deadline fast-fail of `_execute_task`
into pure Lean functions.  External collaborators (template rendering,
the actual task body, supervisor replies) are parameters of the model:
their observable behaviour is an input, the runtime's decisions are the
function being verified.
-/

namespace TaskRunner

/-- A (simplified) universe of JSON-serializable Python values, enough to
express XCom payloads: `vnull` is Python `None`. Dict keys are arbitrary
values so that the `multiple_outputs` string-key check is expressible. -/
inductive Value where
  | vnull : Value
  | vbool : Bool → Value
  | vint : Int → Value
  | vstr : String → Value
  | vlist : List Value → Value
  | vdict : List (Value × Value) → Value

/-- Python's `value is None` test. -/
def Value.isNull : Value → Bool
  | .vnull => true
  | _ => false

/-- Python's `isinstance(key, str)` check for dictionary keys. -/
def Value.isStr : Value → Bool
  | .vstr _ => true
  | _ => false

/-- Composite key identifying one exchanged artifact (XCom):
(dag id, task id, run id, map index, key name).  `map_index` is `none`
when the XCom was stored without a map index. -/
structure XComKey where
  dag_id : String
  task_id : String
  run_id : String
  map_index : Option Int
  key : String
deriving DecidableEq

/-- The XCom backing store: an association list from composite key to
value.  The push operation keeps at most one entry per key. -/
def Store := List (XComKey × Value)

/-- Modelled from the spec: `XCom.get_one` (the single-key fetch, defined
outside this file's source in `airflow/sdk/execution_time/xcom.py`)
returns the stored value for the composite key, or Python `None` when no
artifact exists at that key.  A stored `None` and an absent artifact are
therefore both reported as `None`. -/
def get_one (store : Store) (k : XComKey) : Value :=
  match store.find? (fun p => decide (p.1 = k)) with
  | some p => p.2
  | none => Value.vnull

/-- Modelled from the spec: `XCom.set` stores `v` at the composite key,
replacing any prior value ("at most one value per composite key;
overwritten, not appended"). -/
def set (store : Store) (k : XComKey) (v : Value) : Store :=
  (k, v) :: store.filter (fun p => decide (p.1 ≠ k))

/-- Deleting every artifact stored at composite key `k` (an absent key). -/
def eraseKey (store : Store) (k : XComKey) : Store :=
  store.filter (fun p => decide (p.1 ≠ k))

/-- The fields of the calling `RuntimeTaskInstance` that `xcom_pull`
reads: its own coordinates, used as defaults for the filters. -/
structure PullTI where
  dag_id : String
  task_id : String
  run_id : String
  map_index : Int

/-- The `task_ids` argument of `xcom_pull`: Python `None`, a single
string, or an iterable of strings. -/
inductive TaskIdsArg where
  | noneArg : TaskIdsArg
  | one : String → TaskIdsArg
  | many : List String → TaskIdsArg

/-- The `map_indexes` argument of `xcom_pull`: the `NOTSET` sentinel, a
single int, Python `None`, or an iterable of ints. -/
inductive MapIndexesArg where
  | notset : MapIndexesArg
  | single : Int → MapIndexesArg
  | noneArg : MapIndexesArg
  | many : List Int → MapIndexesArg

/-- Resolution of `task_ids` in `xcom_pull`: default to the current task
when not provided, wrap a single string in a list. -/
def resolveTaskIds (ti : PullTI) : TaskIdsArg → List String
  | .noneArg => [ti.task_id]
  | .one t => [t]
  | .many ts => ts

/-- Resolution of `map_indexes` in `xcom_pull`: `NOTSET` defaults to the
calling task's own map index; an int or `None` is wrapped in a
singleton; an iterable is used as given. -/
def resolveMapIndexes (ti : PullTI) : MapIndexesArg → List (Option Int)
  | .notset => [some ti.map_index]
  | .single i => [some i]
  | .noneArg => [none]
  | .many is => is.map some

/-- The return value of `xcom_pull`: a single XCom entry when exactly one
(task id, map index) pair was looked up, otherwise the list of results. -/
inductive PullResult where
  | scalar : Value → PullResult
  | list : List Value → PullResult

/-- One iteration of the lookup loop in `xcom_pull`: fetch the value for
the composite key and substitute `default` when the fetch reports
`None`. -/
def pullOne (store : Store) (dagId runId key : String) (default : Value)
    (t : String) (m : Option Int) : Value :=
  let value := get_one store ⟨dagId, t, runId, m, key⟩
  if value.isNull then default else value

/-- The final `if len(xcoms) == 1: return xcoms[0]; return xcoms` of
`xcom_pull`. -/
def wrapResult (xcoms : List Value) : PullResult :=
  match xcoms with
  | [v] => .scalar v
  | vs => .list vs

/-- The method `RuntimeTaskInstance.xcom_pull` (task_runner.py lines 257-353):
resolve the dag id / run id defaults, resolve the task-id and map-index
filter lists, look up every pair of the cartesian product in filter
order (task ids outer, map indexes inner), substitute `default` for a
`None` fetch, and return a scalar when exactly one lookup was made,
else the list.  (`include_prior_dates` is forwarded unchanged to the
single-key fetch and is not modelled.) -/
def xcom_pull (store : Store) (ti : PullTI) (task_ids : TaskIdsArg)
    (dag_id : Option String) (key : String) (map_indexes : MapIndexesArg)
    (default : Value) (run_id : Option String) : PullResult :=
  let dagId := dag_id.getD ti.dag_id
  let runId := run_id.getD ti.run_id
  let tids := resolveTaskIds ti task_ids
  let midxs := resolveMapIndexes ti map_indexes
  wrapResult
    (tids.flatMap (fun t => midxs.map (fun m => pullOne store dagId runId key default t m)))

/-! ## The life-cycle state machine of `run` -/

/-- Task-instance states reachable as the outcome of one attempt
(`IntermediateTIState` / `TerminalTIState`). -/
inductive TIState where
  | success | failed | skipped | upForRetry | upForReschedule | deferred
deriving DecidableEq

/-- The fields of `DagRunTriggerException` that `_handle_trigger_dag_run`
reads (conf / logical date / reset flag are opaque payload and elided). -/
structure DagRunTriggerParams where
  trigger_dag_id : String
  dag_run_id : String
  skip_when_already_exists : Bool
  wait_for_completion : Bool
  allowed_states : List String
  failed_states : List String
deriving DecidableEq

/-- The exception escaping `_prepare`, the task body, or
`_push_xcom_if_needed`, as a tagged union.  Each constructor corresponds
to one arm of the `except` chain in `run` (or to one of the dedicated
push errors).  `DagRunTriggerException` carries its operator fields. -/
inductive TaskError where
  | downstreamTasksSkipped : List String → TaskError
  | dagRunTrigger : DagRunTriggerParams → TaskError
  | taskDeferred : TaskError
  | airflowSkip : TaskError
  | airflowReschedule : TaskError
  | airflowFail : TaskError
  | sensorTimeout : TaskError
  | taskTimeout : TaskError
  | airflowException : TaskError
  | taskTerminated : TaskError
  | systemExit : TaskError
  | xcomForMappingNotPushed : TaskError
  | unmappableXComTypePushed : TaskError
  | typeError : TaskError
  | otherBaseException : TaskError
deriving DecidableEq

/-- Outgoing messages to the supervisor (`ToSupervisor` variants used by
`run` and its helpers), with payloads reduced to what the claims
observe. -/
inductive Msg where
  | succeedTask : Msg
  | taskState : TIState → Msg
  | retryTask : Msg
  | rescheduleTask : Msg
  | deferTask : Msg
  | setRenderedFields : Msg
  | skipDownstreamTasks : List String → Msg
  | deleteXCom : String → Msg
  | triggerDagRun : String → String → Msg
  | getDagRunState : String → String → Msg
deriving DecidableEq

/-- Whether a message reports the attempt's outcome (as opposed to a
side request). -/
def Msg.isOutcome : Msg → Bool
  | .succeedTask => true
  | .taskState _ => true
  | .retryTask => true
  | .rescheduleTask => true
  | .deferTask => true
  | _ => false

/-- The fields of the server-supplied `TIRunContext` that `run` reads. -/
structure RunCtx where
  should_retry : Bool
  xcom_keys_to_clear : List String
deriving DecidableEq

/-- The fields of the operator (`ti.task`) that drive the modelled
decisions.  `has_mapped_dependants` is `next(iter_mapped_dependants(), None)
is not None`; `execution_timeout` is `execution_timeout.total_seconds()`
when a deadline is configured. -/
structure Task where
  do_xcom_push : Bool
  multiple_outputs : Bool
  has_mapped_dependants : Bool
  is_mapped : Bool
  execution_timeout : Option ℚ

/-- Observable behaviour of `_prepare`'s external sub-steps: whether the
hostname / prepare-for-execution / template-rendering / serialization
steps raise (all of them run before the rendered-fields request is
sent), and whether the serialized rendered fields are non-empty. -/
structure PrepareEnv where
  raises : Option TaskError
  rendered_fields_nonempty : Bool

/-- The step `_prepare` (task_runner.py lines 586-606): runs the preparation
sub-steps; if none of them raises and the rendered fields are non-empty
it sends one `SetRenderedFields` request.  The listener notification at
the end swallows its own exceptions.  Its normal return value is always
`None` (the source's only `return` statement is `return None`), so the
returned early-exit message is always `none` here. -/
def _prepare (env : PrepareEnv) : List Msg × Except TaskError (Option Msg) :=
  match env.raises with
  | some e => ([], .error e)
  | none =>
      ((if env.rendered_fields_nonempty then [Msg.setRenderedFields] else []), .ok none)

/-- The step `_execute_task` (task_runner.py lines 868-918), deadline part: the
source guards the deadline branch with Python truthiness
(`if task.execution_timeout:`), and a zero timedelta is falsy, so the
branch is entered only for a nonzero configured timeout (a timedelta is
zero exactly when its total seconds are zero).  Inside the branch,
`timeout_seconds <= 0` fast-fails with `AirflowTaskTimeout` before
invoking the body; otherwise the body runs under the deadline.  An
absent or zero `execution_timeout` runs the body with no deadline.  The
body's outcome — a value or a raised exception — is the parameter
`body`.  Hooks are best-effort and elided; the resumption path changes
which callable runs, not the outcome mapping. -/
def _execute_task (task : Task) (body : Except TaskError Value) : Except TaskError Value :=
  match task.execution_timeout with
  | some timeout_seconds =>
      if timeout_seconds ≠ 0 then
        if timeout_seconds ≤ 0 then .error .taskTimeout
        else body
      else body
  | none => body

/-- One pushed artifact: XCom key name, value, and the mapped length
recorded for downstream mapped consumers (`_mapped_length`). -/
structure Push where
  key : String
  value : Value
  mapped_length : Option Nat

/-- Modelled from the spec: `is_mappable_value` (defined outside this
file's source in `airflow/sdk/definitions/mappedoperator.py`) — a value
can be mapped over iff it is a sized, ordered sequence (list or dict);
scalars and strings cannot. -/
def is_mappable_value : Value → Bool
  | .vlist _ => true
  | .vdict _ => true
  | _ => false

/-- Python's `len()` of a mappable value. -/
def Value.pyLen : Value → Nat
  | .vlist xs => xs.length
  | .vdict es => es.length
  | _ => 0

/-- The step `_push_xcom_if_needed` (task_runner.py lines 921-965): the value to
push is the task's result when `do_xcom_push` else `None`; a `None`
value with a mapped dependant raises `XComForMappingNotPushed`, a
non-mappable value with a mapped dependant raises
`UnmappableXComTypePushed`; under `multiple_outputs` the value must be a
string-keyed mapping (else `TypeError`) and each entry is pushed under
its own key; finally the whole result is pushed under `return_value`
with the recorded mapped length.  Returns the list of pushes in push
order, or the raised error (raised before any push happens). -/
def _push_xcom_if_needed (task : Task) (result : Value) : Except TaskError (List Push) :=
  let xcom_value := if task.do_xcom_push then result else Value.vnull
  let is_mapped := task.has_mapped_dependants || task.is_mapped
  if xcom_value.isNull then
    if is_mapped then .error .xcomForMappingNotPushed
    else .ok []
  else
    let mapped_length : Option Nat := if is_mapped then some xcom_value.pyLen else none
    if is_mapped && !is_mappable_value xcom_value then
      .error .unmappableXComTypePushed
    else if task.multiple_outputs then
      match xcom_value with
      | .vdict entries =>
          if entries.all (fun e => e.1.isStr) then
            .ok (entries.map (fun e => ⟨(match e.1 with | .vstr s => s | _ => ""), e.2, none⟩)
                 ++ [⟨"return_value", result, mapped_length⟩])
          else .error .typeError
      | _ => .error .typeError
    else
      .ok [⟨"return_value", result, mapped_length⟩]

/-- The helper `_handle_current_task_failed` (task_runner.py lines 753-759): retry
when the server context exists and allows it, else report `FAILED`. -/
def _handle_current_task_failed (ctx : Option RunCtx) : Msg × TIState :=
  match ctx with
  | some c =>
      if c.should_retry then (Msg.retryTask, TIState.upForRetry)
      else (Msg.taskState TIState.failed, TIState.failed)
  | none => (Msg.taskState TIState.failed, TIState.failed)

/-- The supervisor's reply to the `TriggerDagRun` request: either an
`ErrorResponse` with `DAGRUN_ALREADY_EXISTS`, or a success reply. -/
inductive TriggerReply where
  | alreadyExists : TriggerReply
  | ok : TriggerReply
deriving DecidableEq

/-- Observable supervisor behaviour for one trigger-run interaction:
the reply to the trigger request and the sequence of dag-run states
returned to the successive `GetDagRunState` polls. -/
structure TriggerEnv where
  reply : TriggerReply
  polls : List String

/-- The `while True` polling loop of `_handle_trigger_dag_run`
(task_runner.py lines 800-832), driven by the finite list of observed
poll replies: each iteration sends one `GetDagRunState` request; a state
in `failed_states` decides `false` (FAILED), a state in `allowed_states`
decides `true` (break to the success path), anything else polls again.
`none` means the observed replies ran out with no decision (the source
loop would still be blocked polling). -/
def pollLoop (drte : DagRunTriggerParams) : List String → Option (List Msg × Bool)
  | [] => none
  | s :: rest =>
      let m := Msg.getDagRunState drte.trigger_dag_id drte.dag_run_id
      if drte.failed_states.contains s then some ([m], false)
      else if drte.allowed_states.contains s then some ([m], true)
      else
        match pollLoop drte rest with
        | none => none
        | some (ms, b) => some (m :: ms, b)

/-- The helper `_handle_current_task_success` (task_runner.py lines 739-750):
collect outlets/events (elided payload) and report `SucceedTask`. -/
def _handle_current_task_success : Msg × TIState :=
  (Msg.succeedTask, TIState.success)

/-- The helper `_handle_trigger_dag_run` (task_runner.py lines 762-834): send the
trigger request; if the reply says the run already exists, report
`SKIPPED` when `skip_when_already_exists` else `FAILED`, pushing
nothing; otherwise push the run id under `trigger_run_id`, then — if
`wait_for_completion` — poll the run state until a failed state
(`FAILED`) or an allowed state (success path).  Returns the requests
sent, the pushes made, the outcome message and state; `none` when the
polling loop never reaches a decision. -/
def _handle_trigger_dag_run (drte : DagRunTriggerParams) (env : TriggerEnv) :
    Option (List Msg × List (String × Value) × Msg × TIState) :=
  let req := Msg.triggerDagRun drte.trigger_dag_id drte.dag_run_id
  match env.reply with
  | .alreadyExists =>
      if drte.skip_when_already_exists then
        some ([req], [], Msg.taskState TIState.skipped, TIState.skipped)
      else
        some ([req], [], Msg.taskState TIState.failed, TIState.failed)
  | .ok =>
      -- the run id is pushed under `trigger_run_id` before any waiting
      if drte.wait_for_completion then
        match pollLoop drte env.polls with
        | none => none
        | some (ms, false) =>
            some (req :: ms, [("trigger_run_id", Value.vstr drte.dag_run_id)],
                  Msg.taskState TIState.failed, TIState.failed)
        | some (ms, true) =>
            some (req :: ms, [("trigger_run_id", Value.vstr drte.dag_run_id)],
                  _handle_current_task_success.1, _handle_current_task_success.2)
      else
        some ([req], [("trigger_run_id", Value.vstr drte.dag_run_id)],
              _handle_current_task_success.1, _handle_current_task_success.2)

/-- The `except` chain of `run` (task_runner.py lines 661-731), as a
single dispatch on the raised error, in source order.  Returns the side
requests sent by the handler, the pushes it made, the outcome message it
assigns to `msg`, the state, and the recorded `error`; `none` when the
trigger-run polling never decides. -/
def dispatchError (ctx : Option RunCtx) (tenv : TriggerEnv) (e : TaskError) :
    Option (List Msg × List (String × Value) × Msg × TIState × Option TaskError) :=
  match e with
  | .downstreamTasksSkipped tasks =>
      some ([Msg.skipDownstreamTasks tasks], [], _handle_current_task_success.1,
            _handle_current_task_success.2, none)
  | .dagRunTrigger drte =>
      match _handle_trigger_dag_run drte tenv with
      | none => none
      | some (ms, pushes, m, st) => some (ms, pushes, m, st, none)
  | .taskDeferred => some ([], [], Msg.deferTask, TIState.deferred, none)
  | .airflowSkip => some ([], [], Msg.taskState TIState.skipped, TIState.skipped, none)
  | .airflowReschedule =>
      some ([], [], Msg.rescheduleTask, TIState.upForReschedule, none)
  | .airflowFail =>
      some ([], [], Msg.taskState TIState.failed, TIState.failed, some e)
  | .sensorTimeout =>
      some ([], [], Msg.taskState TIState.failed, TIState.failed, some e)
  | .taskTerminated =>
      some ([], [], Msg.taskState TIState.failed, TIState.failed, some e)
  | _ =>
      -- AirflowTaskTimeout / AirflowException (incl. the dedicated push
      -- errors) / SystemExit / any other BaseException: retry when the
      -- server context allows it.
      some ([], [], (_handle_current_task_failed ctx).1,
            (_handle_current_task_failed ctx).2, some e)

/-- One attempt's inputs: the server context, the observable behaviour
of preparation, the task body's outcome, the operator fields, and the
supervisor's trigger-protocol behaviour. -/
structure RunInput where
  ctx : Option RunCtx
  prepare : PrepareEnv
  body : Except TaskError Value
  task : Task
  triggerEnv : TriggerEnv

/-- One attempt's observable result: final state, every message sent to
the supervisor in order, the XCom pushes made, and the recorded error. -/
structure RunOut where
  state : TIState
  sent : List Msg
  pushes : List (String × Value)
  error : Option TaskError

/-- The XCom-clearing step at the top of `run`'s `try` block: one delete
request per server-listed stale key. -/
def clearMsgs : Option RunCtx → List Msg
  | some c => c.xcom_keys_to_clear.map Msg.deleteXCom
  | none => []

/-- The `try` block of `run`: prepare (early-exit check), execute, push
XCom.  Produces the outcome message / state / pushes, or the raised
error. -/
def tryBlock (inp : RunInput) : Except TaskError (Msg × TIState × List Push) :=
  match (_prepare inp.prepare).2 with
  | .error e => .error e
  | .ok (some early_exit) => .ok (early_exit, TIState.failed, [])
  | .ok none =>
      match _execute_task inp.task inp.body with
      | .error e => .error e
      | .ok result =>
          match _push_xcom_if_needed inp.task result with
          | .error e => .error e
          | .ok pushes =>
              .ok (_handle_current_task_success.1, _handle_current_task_success.2, pushes)

/-- The function `run` (task_runner.py lines 609-736): clear the server-listed XCom
keys, run the try block, dispatch any raised error through the `except`
chain, and — in the `finally` block — send the outcome message that the
taken branch assigned to `msg` (every branch assigns one).  `none` only
when the trigger-run polling never decides (the source loop blocks).
The sent list is in send order: XCom clears, the rendered-fields
request from `_prepare`, the handler's side requests, and the outcome
message last. -/
def run (inp : RunInput) : Option RunOut :=
  match tryBlock inp with
  | .ok (msg, st, pushes) =>
      some ⟨st, clearMsgs inp.ctx ++ (_prepare inp.prepare).1 ++ [msg],
            pushes.map (fun p => (p.key, p.value)), none⟩
  | .error e =>
      match dispatchError inp.ctx inp.triggerEnv e with
      | none => none
      | some (ms, pushes, msg, st, err) =>
          some ⟨st, clearMsgs inp.ctx ++ (_prepare inp.prepare).1 ++ ms ++ [msg],
                pushes, err⟩

/-- Whether the run context reports that a retry is still allowed
(`ti._ti_context_from_server and ti._ti_context_from_server.should_retry`). -/
def ctxShouldRetry : Option RunCtx → Bool
  | some c => c.should_retry
  | none => false

/-- The errors of priority classes 7-8 of the outcome mapping: timeout,
any other declared task error, an interrupt/exit signal, or any other
uncaught condition — the ones subject to the retry-or-fail rule. -/
def TaskError.isRetryClassified : TaskError → Bool
  | .taskTimeout => true
  | .airflowException => true
  | .systemExit => true
  | .otherBaseException => true
  | _ => false

/-! ## Theorems -/

lemma countP_isOutcome_map_deleteXCom (keys : List String) :
    (keys.map Msg.deleteXCom).countP (fun m => m.isOutcome) = 0 := by
  induction keys with
  | nil => rfl
  | cons k ks ih => simp [List.countP_cons, Msg.isOutcome, ih]

lemma countP_isOutcome_prepare (env : PrepareEnv) :
    ((_prepare env).1).countP (fun m => m.isOutcome) = 0 := by
  unfold _prepare
  cases env.raises with
  | some e => rfl
  | none =>
      cases env.rendered_fields_nonempty <;>
        simp [List.countP_cons, Msg.isOutcome]

lemma pollLoop_no_outcome (drte : DagRunTriggerParams) :
    ∀ polls ms b, pollLoop drte polls = some (ms, b) →
      ms.countP (fun m => m.isOutcome) = 0 := by
  intro polls
  induction polls with
  | nil => intro ms b h; simp [pollLoop] at h
  | cons s rest ih =>
      intro ms b h
      unfold pollLoop at h
      split at h
      · simp at h
        obtain ⟨h1, _⟩ := h
        subst h1
        simp [List.countP_cons, Msg.isOutcome]
      · split at h
        · simp at h
          obtain ⟨h1, _⟩ := h
          subst h1
          simp [List.countP_cons, Msg.isOutcome]
        · split at h
          · simp at h
          next ms' b' hrec =>
            simp at h
            obtain ⟨h1, _⟩ := h
            subst h1
            simpa [List.countP_cons, Msg.isOutcome] using ih ms' b' hrec

lemma trigger_handler_outcome (drte : DagRunTriggerParams) (env : TriggerEnv)
    (ms : List Msg) (pushes : List (String × Value)) (m : Msg) (st : TIState)
    (h : _handle_trigger_dag_run drte env = some (ms, pushes, m, st)) :
    ms.countP (fun x => x.isOutcome) = 0 ∧ m.isOutcome = true := by
  unfold _handle_trigger_dag_run at h
  split at h
  · -- reply: run already exists
    split at h
    all_goals
      simp at h
      obtain ⟨h1, _, h3, _⟩ := h
      subst h1; subst h3
      simp [Msg.isOutcome]
  · -- reply: run created
    split at h
    · split at h
      · simp at h
      · next pms hp =>
          simp at h
          obtain ⟨h1, _, h3, _⟩ := h
          subst h1; subst h3
          refine ⟨?_, by simp [Msg.isOutcome]⟩
          simpa [List.countP_cons, Msg.isOutcome] using
            pollLoop_no_outcome drte env.polls pms _ hp
      · next pms hp =>
          simp [_handle_current_task_success] at h
          obtain ⟨h1, _, h3, _⟩ := h
          subst h1; subst h3
          refine ⟨?_, by simp [Msg.isOutcome]⟩
          simpa [List.countP_cons, Msg.isOutcome] using
            pollLoop_no_outcome drte env.polls pms _ hp
    · simp [_handle_current_task_success] at h
      obtain ⟨h1, _, h3, _⟩ := h
      subst h1; subst h3
      simp [Msg.isOutcome]

lemma handle_failed_outcome (ctx : Option RunCtx) :
    (_handle_current_task_failed ctx).1.isOutcome = true := by
  cases ctx with
  | none => rfl
  | some c =>
      cases hc : c.should_retry <;>
        simp [_handle_current_task_failed, hc, Msg.isOutcome]

lemma dispatchError_outcome (ctx : Option RunCtx) (tenv : TriggerEnv) (e : TaskError)
    (ms : List Msg) (pushes : List (String × Value)) (m : Msg) (st : TIState)
    (err : Option TaskError)
    (h : dispatchError ctx tenv e = some (ms, pushes, m, st, err)) :
    ms.countP (fun x => x.isOutcome) = 0 ∧ m.isOutcome = true := by
  cases e
  case downstreamTasksSkipped tasks =>
      simp [dispatchError, _handle_current_task_success] at h
      obtain ⟨h1, _, h3, _⟩ := h
      subst h1; subst h3
      simp [List.countP_cons, Msg.isOutcome]
  case dagRunTrigger drte =>
      simp only [dispatchError] at h
      cases ht : _handle_trigger_dag_run drte tenv with
      | none => rw [ht] at h; simp at h
      | some q =>
          rw [ht] at h
          obtain ⟨qms, qpushes, qm, qst⟩ := q
          simp at h
          obtain ⟨h1, _, h3, _⟩ := h
          subst h1; subst h3
          exact trigger_handler_outcome drte tenv qms qpushes qm qst ht
  all_goals
    simp [dispatchError] at h
  case taskDeferred | airflowSkip | airflowReschedule | airflowFail
     | sensorTimeout | taskTerminated =>
      obtain ⟨h1, _, h3, _⟩ := h
      subst h1; subst h3
      simp [Msg.isOutcome]
  all_goals
    obtain ⟨h1, _, h3, _⟩ := h
    subst h1; subst h3
    exact ⟨rfl, handle_failed_outcome ctx⟩

lemma countP_isOutcome_clearMsgs (ctx : Option RunCtx) :
    (clearMsgs ctx).countP (fun m => m.isOutcome) = 0 := by
  cases ctx with
  | none => rfl
  | some c => exact countP_isOutcome_map_deleteXCom c.xcom_keys_to_clear

lemma tryBlock_outcome (inp : RunInput) (m : Msg) (st : TIState) (p : List Push)
    (h : tryBlock inp = .ok (m, st, p)) : m.isOutcome = true := by
  unfold tryBlock at h
  cases hr : inp.prepare.raises with
  | some e => simp [_prepare, hr] at h
  | none =>
      simp only [_prepare, hr] at h
      cases he : _execute_task inp.task inp.body with
      | error e => simp only [he] at h; simp at h
      | ok result =>
          simp only [he] at h
          cases hp : _push_xcom_if_needed inp.task result with
          | error e => simp only [hp] at h; simp at h
          | ok pushes =>
              simp only [hp] at h
              simp [_handle_current_task_success] at h
              obtain ⟨h1, _⟩ := h
              subst h1
              simp [Msg.isOutcome]

/-- C1: For every attempt that reaches `run`, whichever branch is
taken, the list of messages sent to the supervisor contains exactly one
outcome message, and it is the last message sent (the `finally` block). -/
theorem c1_exactly_one_outcome (inp : RunInput) (out : RunOut)
    (h : run inp = some out) :
    out.sent.countP (fun m => m.isOutcome) = 1 ∧
    ∃ m, out.sent.getLast? = some m ∧ m.isOutcome = true := by
  unfold run at h
  cases htb : tryBlock inp with
  | ok r =>
      obtain ⟨m, st, p⟩ := r
      simp only [htb] at h
      simp at h
      subst h
      have hm := tryBlock_outcome inp m st p htb
      constructor
      · simp [List.countP_append, List.countP_cons,
              countP_isOutcome_clearMsgs, countP_isOutcome_prepare, hm]
      · refine ⟨m, ?_, hm⟩
        rw [← List.append_assoc]
        exact List.getLast?_concat _
  | error e =>
      simp only [htb] at h
      cases hd : dispatchError inp.ctx inp.triggerEnv e with
      | none => simp only [hd] at h; simp at h
      | some q =>
          simp only [hd] at h
          obtain ⟨ms, pushes, m, st, err⟩ := q
          simp at h
          subst h
          obtain ⟨hms, hm⟩ :=
            dispatchError_outcome inp.ctx inp.triggerEnv e ms pushes m st err hd
          constructor
          · simp [List.countP_append, List.countP_cons,
                  countP_isOutcome_clearMsgs, countP_isOutcome_prepare, hms, hm]
          · refine ⟨m, ?_, hm⟩
            rw [← List.append_assoc, ← List.append_assoc]
            exact List.getLast?_concat _

/-- A concrete successful attempt used to witness the C1 theorem. -/
def c1Input : RunInput :=
  { ctx := none,
    prepare := ⟨none, false⟩,
    body := .ok (Value.vint 1),
    task := ⟨false, false, false, false, none⟩,
    triggerEnv := ⟨.ok, []⟩ }

/-- The result of running `c1Input`. -/
def c1Out : RunOut := ⟨TIState.success, [Msg.succeedTask], [], none⟩

/-- Witness for C1 at a concrete successful attempt. -/
theorem c1_exactly_one_outcome_witness :
    run c1Input = some c1Out ∧
    (c1Out.sent.countP (fun m => m.isOutcome) = 1 ∧
     ∃ m, c1Out.sent.getLast? = some m ∧ m.isOutcome = true) :=
  ⟨rfl, c1_exactly_one_outcome c1Input c1Out rfl⟩

lemma tryBlock_error_of_prepare (inp : RunInput) (e : TaskError)
    (hp : inp.prepare.raises = some e) : tryBlock inp = .error e := by
  unfold tryBlock
  simp only [_prepare, hp]

lemma tryBlock_error_of_execute (inp : RunInput) (e : TaskError)
    (hprep : inp.prepare.raises = none)
    (he : _execute_task inp.task inp.body = .error e) :
    tryBlock inp = .error e := by
  unfold tryBlock
  simp only [_prepare, hprep, he]

lemma execute_retry_classified (task : Task) (e : TaskError)
    (he : e.isRetryClassified = true) :
    ∃ e', _execute_task task (.error e) = .error e' ∧ e'.isRetryClassified = true := by
  unfold _execute_task
  cases task.execution_timeout with
  | none => exact ⟨e, rfl, he⟩
  | some t =>
      by_cases h0 : t ≠ 0
      · by_cases ht : t ≤ 0
        · exact ⟨.taskTimeout, by simp [h0, ht], rfl⟩
        · exact ⟨e, by simp [h0, ht], he⟩
      · exact ⟨e, by simp [h0], he⟩

lemma dispatch_retry_classified (ctx : Option RunCtx) (tenv : TriggerEnv)
    (e : TaskError) (he : e.isRetryClassified = true) :
    dispatchError ctx tenv e =
      some ([], [], (_handle_current_task_failed ctx).1,
            (_handle_current_task_failed ctx).2, some e) := by
  cases e <;> simp [TaskError.isRetryClassified] at he <;> rfl

/-- C2: A retryable error escaping the task body (timeout, any other
declared task error, an interrupt/exit signal, or any other uncaught
condition) yields `UP_FOR_RETRY` exactly when the server context allows
a retry, and `FAILED` otherwise. -/
theorem c2_retry_iff_allowed (inp : RunInput) (c : RunCtx)
    (hc : inp.ctx = some c) (hprep : inp.prepare.raises = none)
    (e : TaskError) (he : e.isRetryClassified = true)
    (hbody : inp.body = .error e) :
    (run inp).map RunOut.state =
      some (if c.should_retry then TIState.upForRetry else TIState.failed) := by
  obtain ⟨e', he', hrc⟩ := execute_retry_classified inp.task e he
  have htb : tryBlock inp = .error e' :=
    tryBlock_error_of_execute inp e' hprep (by rw [hbody]; exact he')
  unfold run
  simp only [htb, dispatch_retry_classified inp.ctx inp.triggerEnv e' hrc]
  simp only [hc]
  cases hr : c.should_retry <;>
    simp [_handle_current_task_failed, hr]

/-- A concrete attempt whose body raises a generic declared task error
while the context still allows a retry; used to witness C2. -/
def c2Input : RunInput :=
  { ctx := some ⟨true, []⟩,
    prepare := ⟨none, false⟩,
    body := .error .airflowException,
    task := ⟨false, false, false, false, none⟩,
    triggerEnv := ⟨.ok, []⟩ }

/-- Witness for C2: retry allowed, so the outcome is `UP_FOR_RETRY`. -/
theorem c2_retry_iff_allowed_witness :
    c2Input.ctx = some ⟨true, []⟩ ∧
    (run c2Input).map RunOut.state = some TIState.upForRetry :=
  ⟨rfl, c2_retry_iff_allowed c2Input ⟨true, []⟩ rfl rfl .airflowException rfl rfl⟩

/-- C3: `AirflowFailException` or `AirflowSensorTimeout` escaping
execution yields `FAILED` — never `UP_FOR_RETRY` — whatever the run
context's retry bookkeeping says. -/
theorem c3_fail_without_retry (inp : RunInput) (e : TaskError)
    (he : e = TaskError.airflowFail ∨ e = TaskError.sensorTimeout)
    (hprep : inp.prepare.raises = none)
    (hexec : _execute_task inp.task inp.body = .error e) :
    (run inp).map RunOut.state = some TIState.failed ∧
    (run inp).map RunOut.error = some (some e) := by
  have htb := tryBlock_error_of_execute inp e hprep hexec
  rcases he with he | he <;> subst he <;>
    (unfold run; simp only [htb]; simp [dispatchError])

/-- A concrete attempt raising the fail-without-retry signal with
retries still allowed; used to witness C3. -/
def c3Input : RunInput :=
  { ctx := some ⟨true, []⟩,
    prepare := ⟨none, false⟩,
    body := .error .airflowFail,
    task := ⟨false, false, false, false, none⟩,
    triggerEnv := ⟨.ok, []⟩ }

/-- Witness for C3: even with `should_retry` true, the outcome is
`FAILED`. -/
theorem c3_fail_without_retry_witness :
    (run c3Input).map RunOut.state = some TIState.failed ∧
    (run c3Input).map RunOut.error = some (some TaskError.airflowFail) :=
  c3_fail_without_retry c3Input .airflowFail (Or.inl rfl) rfl rfl

/-- A concrete attempt whose preparation raises a generic error while
the run context still allows a retry. -/
def c4Input : RunInput :=
  { ctx := some ⟨true, []⟩,
    prepare := ⟨some .otherBaseException, false⟩,
    body := .ok Value.vnull,
    task := ⟨false, false, false, false, none⟩,
    triggerEnv := ⟨.ok, []⟩ }

/-- C4 counterexample: The claim says a preparation failure always
reports `FAILED`; on `c4Input` preparation raises a generic error with
retries remaining, and the reported outcome is `UP_FOR_RETRY`, not
`FAILED`. -/
theorem c4_prepare_error_counterexample :
    (run c4Input).map RunOut.state = some TIState.upForRetry ∧
    TIState.upForRetry ≠ TIState.failed :=
  ⟨rfl, by decide⟩

/-- C4 amended: When preparation raises, the task body is never
executed (the attempt's result is independent of the body's outcome),
and the error goes through the same exception-to-outcome dispatch as
execution errors — in particular a generic retryable preparation error
yields `UP_FOR_RETRY` when the run context allows a retry and `FAILED`
otherwise, rather than unconditionally `FAILED`. -/
theorem c4_prepare_error_amended (inp : RunInput) (e : TaskError)
    (hp : inp.prepare.raises = some e) :
    (∀ b₁ b₂ : Except TaskError Value,
        run {inp with body := b₁} = run {inp with body := b₂}) ∧
    (e.isRetryClassified = true →
      (run inp).map RunOut.state =
        some (if ctxShouldRetry inp.ctx then TIState.upForRetry else TIState.failed)) := by
  constructor
  · intro b₁ b₂
    have h₁ : tryBlock {inp with body := b₁} = .error e :=
      tryBlock_error_of_prepare _ e hp
    have h₂ : tryBlock {inp with body := b₂} = .error e :=
      tryBlock_error_of_prepare _ e hp
    unfold run
    simp only [h₁, h₂]
  · intro hrc
    have htb := tryBlock_error_of_prepare inp e hp
    unfold run
    simp only [htb, dispatch_retry_classified inp.ctx inp.triggerEnv e hrc]
    cases hctx : inp.ctx with
    | none => simp [_handle_current_task_failed, ctxShouldRetry]
    | some c =>
        cases hr : c.should_retry <;>
          simp [_handle_current_task_failed, ctxShouldRetry, hr]

/-- Witness for the amended C4 at `c4Input`. -/
theorem c4_prepare_error_amended_witness :
    (∀ b₁ b₂ : Except TaskError Value,
        run {c4Input with body := b₁} = run {c4Input with body := b₂}) ∧
    (TaskError.isRetryClassified .otherBaseException = true →
      (run c4Input).map RunOut.state =
        some (if ctxShouldRetry c4Input.ctx then TIState.upForRetry else TIState.failed)) :=
  c4_prepare_error_amended c4Input .otherBaseException rfl

/-- A task configured with an execution deadline of exactly zero: the
remaining budget is already ≤ 0 when execution starts. -/
def c5ZeroTask : Task := ⟨true, false, false, false, some 0⟩

/-- C5 counterexample: the claim says a configured deadline with budget
≤ 0 raises the Timeout signal immediately without invoking the body.
On `c5ZeroTask` the deadline is exactly zero — a falsy timedelta — so
`_execute_task` skips the deadline branch entirely: the body is invoked
(its outcome passes through unchanged, for a value and for an error
alike) and no Timeout is raised. -/
theorem c5_deadline_counterexample :
    c5ZeroTask.execution_timeout = some (0 : ℚ) ∧
    (0 : ℚ) ≤ 0 ∧
    _execute_task c5ZeroTask (.ok (Value.vint 3)) = .ok (Value.vint 3) ∧
    _execute_task c5ZeroTask (.error .airflowSkip) = .error .airflowSkip ∧
    _execute_task c5ZeroTask (.ok (Value.vint 3)) ≠ .error .taskTimeout := by
  refine ⟨rfl, le_refl 0, ?_, ?_, ?_⟩ <;> simp [_execute_task, c5ZeroTask]

/-- C5 amended: with an execution deadline configured whose remaining
budget is strictly negative, `_execute_task` raises the timeout signal
without invoking the body (the result is the same for every body), and
the attempt ends in the timeout-derived retry-or-failure outcome; a
configured deadline of exactly zero is a falsy timedelta, so the
deadline branch is skipped and the body runs with no deadline. -/
theorem c5_elapsed_deadline_amended (inp : RunInput) (t : ℚ)
    (htask : inp.task.execution_timeout = some t) (ht : t < 0)
    (hprep : inp.prepare.raises = none) :
    (∀ b : Except TaskError Value, _execute_task inp.task b = .error .taskTimeout) ∧
    (run inp).map RunOut.state =
      some (if ctxShouldRetry inp.ctx then TIState.upForRetry else TIState.failed) ∧
    (run inp).map RunOut.error = some (some TaskError.taskTimeout) ∧
    (∀ (task : Task) (b : Except TaskError Value),
        task.execution_timeout = some 0 → _execute_task task b = b) := by
  have hexec : ∀ b : Except TaskError Value,
      _execute_task inp.task b = .error .taskTimeout := by
    intro b
    unfold _execute_task
    simp [htask, ne_of_lt ht, le_of_lt ht]
  have hzero : ∀ (task : Task) (b : Except TaskError Value),
      task.execution_timeout = some 0 → _execute_task task b = b := by
    intro task b h0
    unfold _execute_task
    simp [h0]
  refine ⟨hexec, ?_, ?_, hzero⟩
  all_goals
    have htb := tryBlock_error_of_execute inp .taskTimeout hprep (hexec inp.body)
    unfold run
    simp only [htb, dispatch_retry_classified inp.ctx inp.triggerEnv .taskTimeout rfl]
    cases hctx : inp.ctx with
    | none => simp [_handle_current_task_failed, ctxShouldRetry]
    | some c =>
        cases hr : c.should_retry <;>
          simp [_handle_current_task_failed, ctxShouldRetry, hr]

/-- A concrete attempt with a strictly negative execution deadline and
no retries remaining; used to witness the amended C5. -/
def c5Input : RunInput :=
  { ctx := some ⟨false, []⟩,
    prepare := ⟨none, false⟩,
    body := .ok (Value.vint 3),
    task := ⟨true, false, false, false, some (-5)⟩,
    triggerEnv := ⟨.ok, []⟩ }

/-- Witness for the amended C5: the body's value is never consulted and
the outcome is `FAILED` (no retries remaining). -/
theorem c5_elapsed_deadline_amended_witness :
    (∀ b : Except TaskError Value, _execute_task c5Input.task b = .error .taskTimeout) ∧
    (run c5Input).map RunOut.state =
      some (if ctxShouldRetry c5Input.ctx then TIState.upForRetry else TIState.failed) ∧
    (run c5Input).map RunOut.error = some (some TaskError.taskTimeout) ∧
    (∀ (task : Task) (b : Except TaskError Value),
        task.execution_timeout = some 0 → _execute_task task b = b) :=
  c5_elapsed_deadline_amended c5Input (-5) rfl (by norm_num) rfl

lemma wrapResult_not_single (xs : List Value) (h : xs.length ≠ 1) :
    wrapResult xs = .list xs := by
  match xs with
  | [] => rfl
  | [v] => simp at h
  | v :: w :: rest => rfl

lemma length_flatMap_map {α β γ : Type} (ts : List α) (ms : List β) (f : α → β → γ) :
    (ts.flatMap (fun t => ms.map (f t))).length = ts.length * ms.length := by
  induction ts with
  | nil => simp
  | cons t ts ih =>
      simp [List.flatMap_cons, List.length_append, ih]
      ring

/-- C6: `xcom_pull` returns a scalar when exactly one (task id, map
index) pair is resolved (the looked-up value, or `default` when the
lookup finds nothing — `pullOne`); with multiple task ids or map
indexes it returns the list over the cartesian product of the filter
lists in filter order (task ids outer, map indexes inner), each
unmatched lookup replaced by `default`; in particular two task ids with
no map-index filter give a two-element list in task-id order. -/
theorem c6_xcom_pull_shape (store : Store) (ti : PullTI) (key : String)
    (default : Value) :
    (∀ tids midxs t m, resolveTaskIds ti tids = [t] →
        resolveMapIndexes ti midxs = [m] →
        xcom_pull store ti tids none key midxs default none =
          .scalar (pullOne store ti.dag_id ti.run_id key default t m)) ∧
    (∀ tids midxs, 1 < (resolveTaskIds ti tids).length ∨
        1 < (resolveMapIndexes ti midxs).length →
        xcom_pull store ti tids none key midxs default none =
          .list ((resolveTaskIds ti tids).flatMap (fun t =>
            (resolveMapIndexes ti midxs).map (fun m =>
              pullOne store ti.dag_id ti.run_id key default t m)))) ∧
    (∀ t₁ t₂, xcom_pull store ti (.many [t₁, t₂]) none key .notset default none =
        .list [pullOne store ti.dag_id ti.run_id key default t₁ (some ti.map_index),
               pullOne store ti.dag_id ti.run_id key default t₂ (some ti.map_index)]) := by
  refine ⟨?_, ?_, ?_⟩
  · intro tids midxs t m h₁ h₂
    simp [xcom_pull, h₁, h₂, wrapResult]
  · intro tids midxs hlen
    unfold xcom_pull
    apply wrapResult_not_single
    rw [length_flatMap_map]
    rcases hlen with hlen | hlen
    · intro hcontra
      have := Nat.eq_one_of_mul_eq_one_right hcontra
      omega
    · intro hcontra
      have := Nat.eq_one_of_mul_eq_one_left hcontra
      omega
  · intro t₁ t₂
    rfl

/-- A concrete store/instance pair used to witness C6: task `"a"`
pushed 7, task `"b"` pushed nothing. -/
def c6Store : Store :=
  [(⟨"d", "a", "r", some 0, "return_value"⟩, Value.vint 7)]

/-- The calling task instance for the C6 witness. -/
def c6TI : PullTI := ⟨"d", "me", "r", 0⟩

/-- Witness for C6: pulling `["a", "b"]` yields the two-element list
`[7, default]` in task-id order. -/
theorem c6_xcom_pull_shape_witness :
    xcom_pull c6Store c6TI (.many ["a", "b"]) none "return_value" .notset
        (Value.vint 99) none =
      .list [Value.vint 7, Value.vint 99] :=
  ((c6_xcom_pull_shape c6Store c6TI "return_value" (Value.vint 99)).2.2 "a" "b").trans
    (by rfl)

lemma get_one_set_null (store : Store) (k k' : XComKey) :
    get_one (set store k Value.vnull) k' = get_one (eraseKey store k) k' := by
  unfold get_one set eraseKey
  by_cases hk : k = k'
  · subst hk
    rw [List.find?_cons_of_pos _ (by simp)]
    have hnone : (store.filter (fun p => decide (p.1 ≠ k))).find?
        (fun p => decide (p.1 = k)) = none := by
      rw [List.find?_eq_none]
      intro p hp
      have := List.of_mem_filter hp
      simp at this ⊢
      exact this
    rw [hnone]
  · rw [List.find?_cons_of_neg _ (by simpa using hk)]

lemma xcom_pull_store_ext (s₁ s₂ : Store)
    (hg : ∀ k, get_one s₁ k = get_one s₂ k) (ti : PullTI)
    (task_ids : TaskIdsArg) (dag_id : Option String) (key : String)
    (map_indexes : MapIndexesArg) (default : Value) (run_id : Option String) :
    xcom_pull s₁ ti task_ids dag_id key map_indexes default run_id =
    xcom_pull s₂ ti task_ids dag_id key map_indexes default run_id := by
  have hp : ∀ dagId runId t m,
      pullOne s₁ dagId runId key default t m = pullOne s₂ dagId runId key default t m := by
    intro dagId runId t m
    unfold pullOne
    rw [hg]
  unfold xcom_pull
  simp only [hp]

/-- C10: When the single-key fetch reports `None` — absent artifact
or stored `None` alike — `xcom_pull` substitutes the supplied default;
consequently pushing `None` at a key is indistinguishable, through
`xcom_pull`, from that key holding no artifact at all. -/
theorem c10_pushed_null_indistinguishable (store : Store) :
    (∀ dagId runId key default t m,
        (get_one store ⟨dagId, t, runId, m, key⟩).isNull = true →
        pullOne store dagId runId key default t m = default) ∧
    (∀ (k : XComKey) (ti : PullTI) (task_ids : TaskIdsArg)
        (dag_id : Option String) (key : String) (map_indexes : MapIndexesArg)
        (default : Value) (run_id : Option String),
        xcom_pull (set store k Value.vnull) ti task_ids dag_id key map_indexes
            default run_id =
        xcom_pull (eraseKey store k) ti task_ids dag_id key map_indexes
            default run_id) := by
  constructor
  · intro dagId runId key default t m h
    unfold pullOne
    simp [h]
  · intro k ti task_ids dag_id key map_indexes default run_id
    exact xcom_pull_store_ext _ _ (get_one_set_null store k) ti task_ids dag_id key
      map_indexes default run_id

/-- Witness for C10: on the concrete store of the C6 witness, pulling
after pushing `None` for task `"a"` equals pulling after erasing the
key, and both substitute the default. -/
theorem c10_pushed_null_indistinguishable_witness :
    ((get_one c6Store ⟨"d", "zz", "r", some 0, "return_value"⟩).isNull = true ∧
     pullOne c6Store "d" "r" "return_value" (Value.vint 99) "zz" (some 0) =
       Value.vint 99) ∧
    xcom_pull (set c6Store ⟨"d", "a", "r", some 0, "return_value"⟩ Value.vnull)
        c6TI (.one "a") none "return_value" .notset (Value.vint 99) none =
      xcom_pull (eraseKey c6Store ⟨"d", "a", "r", some 0, "return_value"⟩)
        c6TI (.one "a") none "return_value" .notset (Value.vint 99) none :=
  ⟨⟨rfl, (c10_pushed_null_indistinguishable c6Store).1 "d" "r" "return_value"
      (Value.vint 99) "zz" (some 0) rfl⟩,
   (c10_pushed_null_indistinguishable c6Store).2 ⟨"d", "a", "r", some 0, "return_value"⟩
      c6TI (.one "a") none "return_value" .notset (Value.vint 99) none⟩

/-- C7: With a downstream mapped dependant: producing no value
raises the dedicated `XComForMappingNotPushed` error (and, at run
level, the attempt produces no success outcome and records that error);
producing a value that cannot be mapped over raises the dedicated
`UnmappableXComTypePushed` error. -/
theorem c7_mapped_dependant (task : Task)
    (hm : task.has_mapped_dependants = true) :
    (_push_xcom_if_needed task Value.vnull = .error .xcomForMappingNotPushed) ∧
    (∀ v : Value, task.do_xcom_push = true → v.isNull = false →
        is_mappable_value v = false →
        _push_xcom_if_needed task v = .error .unmappableXComTypePushed) ∧
    (∀ inp : RunInput, inp.task = task → inp.prepare.raises = none →
        _execute_task inp.task inp.body = .ok Value.vnull →
        (run inp).map RunOut.state ≠ some TIState.success ∧
        (run inp).map RunOut.error = some (some TaskError.xcomForMappingNotPushed)) := by
  have h₁ : _push_xcom_if_needed task Value.vnull = .error .xcomForMappingNotPushed := by
    unfold _push_xcom_if_needed
    cases hdx : task.do_xcom_push <;> simp [Value.isNull, hm]
  refine ⟨h₁, ?_, ?_⟩
  · intro v hdx hv hmv
    unfold _push_xcom_if_needed
    simp [hdx, hv, hmv, hm]
  · intro inp hti hprep hexec
    have htb : tryBlock inp = .error .xcomForMappingNotPushed := by
      rw [hti] at hexec
      unfold tryBlock
      simp only [_prepare, hprep, hti, hexec, h₁]
    unfold run
    simp only [htb]
    simp only [dispatchError]
    cases hctx : inp.ctx with
    | none => simp [_handle_current_task_failed]
    | some c =>
        cases hr : c.should_retry <;>
          simp [_handle_current_task_failed, hr]

/-- A task with a mapped dependant, used to witness C7. -/
def c7Task : Task := ⟨true, false, true, false, none⟩

/-- A run whose body returns no value while `c7Task` has a mapped
dependant; used in the C7 witness. -/
def c7Input : RunInput :=
  { ctx := some ⟨true, []⟩,
    prepare := ⟨none, false⟩,
    body := .ok Value.vnull,
    task := c7Task,
    triggerEnv := ⟨.ok, []⟩ }

/-- Witness for C7: the dedicated errors at concrete values, and the
run-level no-success conclusion at `c7Input`. -/
theorem c7_mapped_dependant_witness :
    (_push_xcom_if_needed c7Task Value.vnull = .error .xcomForMappingNotPushed) ∧
    (_push_xcom_if_needed c7Task (Value.vint 5) = .error .unmappableXComTypePushed) ∧
    ((run c7Input).map RunOut.state ≠ some TIState.success ∧
     (run c7Input).map RunOut.error = some (some TaskError.xcomForMappingNotPushed)) :=
  ⟨(c7_mapped_dependant c7Task rfl).1,
   (c7_mapped_dependant c7Task rfl).2.1 (Value.vint 5) rfl rfl rfl,
   (c7_mapped_dependant c7Task rfl).2.2 c7Input rfl rfl rfl⟩

/-- C8: Under `multiple_outputs` the produced value must be a
string-keyed mapping: a non-mapping value (e.g. a list) or a non-string
key raises the type error, with no push recorded; a valid mapping
pushes each entry under its own key and the combined value under
`return_value`.  Without `multiple_outputs`, a returned list is pushed
as the single `return_value` artifact only. -/
theorem c8_multiple_outputs_mapping (task : Task)
    (hpush : task.do_xcom_push = true) :
    (∀ xs : List Value, task.multiple_outputs = true →
        _push_xcom_if_needed task (.vlist xs) = .error .typeError) ∧
    (∀ entries : List (Value × Value), task.multiple_outputs = true →
        entries.all (fun e => e.1.isStr) = false →
        _push_xcom_if_needed task (.vdict entries) = .error .typeError) ∧
    (∀ entries : List (Value × Value), task.multiple_outputs = true →
        entries.all (fun e => e.1.isStr) = true →
        _push_xcom_if_needed task (.vdict entries) =
          .ok (entries.map
                (fun e => ⟨(match e.1 with | .vstr s => s | _ => ""), e.2, none⟩) ++
              [⟨"return_value", .vdict entries,
                if task.has_mapped_dependants || task.is_mapped then
                  some entries.length else none⟩])) ∧
    (∀ xs : List Value, task.multiple_outputs = false →
        _push_xcom_if_needed task (.vlist xs) =
          .ok [⟨"return_value", .vlist xs,
                if task.has_mapped_dependants || task.is_mapped then
                  some xs.length else none⟩]) := by
  refine ⟨?_, ?_, ?_, ?_⟩
  · intro xs hmo
    unfold _push_xcom_if_needed
    simp [hpush, hmo, Value.isNull, is_mappable_value]
  · intro entries hmo hks
    unfold _push_xcom_if_needed
    simp [hpush, hmo, hks, Value.isNull, is_mappable_value]
  · intro entries hmo hks
    unfold _push_xcom_if_needed
    simp [hpush, hmo, hks, Value.isNull, is_mappable_value, Value.pyLen]
  · intro xs hmo
    unfold _push_xcom_if_needed
    simp [hpush, hmo, Value.isNull, is_mappable_value, Value.pyLen]

/-- A `multiple_outputs` task used to witness C8. -/
def c8TaskMO : Task := ⟨true, true, false, false, none⟩

/-- The same operator shape without `multiple_outputs`. -/
def c8TaskPlain : Task := ⟨true, false, false, false, none⟩

/-- Witness for C8: a list fails the type check under
`multiple_outputs` and pushes nothing; a non-string-keyed dict fails
too; a string-keyed dict pushes each key plus `return_value`; without
`multiple_outputs` the list is pushed under `return_value` only. -/
theorem c8_multiple_outputs_mapping_witness :
    (_push_xcom_if_needed c8TaskMO (.vlist [Value.vint 1, Value.vint 2]) =
       .error .typeError) ∧
    (_push_xcom_if_needed c8TaskMO
       (.vdict [(Value.vint 3, Value.vint 4)]) = .error .typeError) ∧
    (_push_xcom_if_needed c8TaskMO
       (.vdict [(Value.vstr "k", Value.vint 4)]) =
       .ok [⟨"k", Value.vint 4, none⟩,
            ⟨"return_value", .vdict [(Value.vstr "k", Value.vint 4)], none⟩]) ∧
    (_push_xcom_if_needed c8TaskPlain (.vlist [Value.vint 1, Value.vint 2]) =
       .ok [⟨"return_value", .vlist [Value.vint 1, Value.vint 2], none⟩]) :=
  ⟨(c8_multiple_outputs_mapping c8TaskMO rfl).1 [Value.vint 1, Value.vint 2] rfl,
   (c8_multiple_outputs_mapping c8TaskMO rfl).2.1 [(Value.vint 3, Value.vint 4)] rfl rfl,
   ((c8_multiple_outputs_mapping c8TaskMO rfl).2.2.1
      [(Value.vstr "k", Value.vint 4)] rfl rfl).trans (by rfl),
   ((c8_multiple_outputs_mapping c8TaskPlain rfl).2.2.2
      [Value.vint 1, Value.vint 2] rfl).trans (by rfl)⟩

/-- C9: A trigger-run reply reporting that the target run already
exists yields `SKIPPED` when `skip_when_already_exists` is set and
`FAILED` otherwise; the only message sent is the trigger request (no
polling), no artifact is pushed, and the run-level outcome matches. -/
theorem c9_trigger_already_exists (drte : DagRunTriggerParams) (env : TriggerEnv)
    (hreply : env.reply = .alreadyExists) :
    (_handle_trigger_dag_run drte env =
       some ([Msg.triggerDagRun drte.trigger_dag_id drte.dag_run_id], [],
             Msg.taskState (if drte.skip_when_already_exists then TIState.skipped
                            else TIState.failed),
             if drte.skip_when_already_exists then TIState.skipped
             else TIState.failed)) ∧
    (∀ inp : RunInput, inp.triggerEnv = env → inp.prepare.raises = none →
        _execute_task inp.task inp.body = .error (.dagRunTrigger drte) →
        (run inp).map RunOut.state =
          some (if drte.skip_when_already_exists then TIState.skipped
                else TIState.failed) ∧
        (run inp).map RunOut.pushes = some []) := by
  have h₁ : _handle_trigger_dag_run drte env =
      some ([Msg.triggerDagRun drte.trigger_dag_id drte.dag_run_id], [],
            Msg.taskState (if drte.skip_when_already_exists then TIState.skipped
                           else TIState.failed),
            if drte.skip_when_already_exists then TIState.skipped
            else TIState.failed) := by
    unfold _handle_trigger_dag_run
    simp only [hreply]
    cases hs : drte.skip_when_already_exists <;> simp [hs]
  refine ⟨h₁, ?_⟩
  intro inp htenv hprep hexec
  have htb := tryBlock_error_of_execute inp (.dagRunTrigger drte) hprep hexec
  unfold run
  simp only [htb, dispatchError, htenv, h₁]
  cases hs : drte.skip_when_already_exists <;> simp [hs]

/-- A trigger request / environment pair where the run already exists
and duplicate tolerance is off; used to witness C9. -/
def c9Drte : DagRunTriggerParams := ⟨"other", "r1", false, true, ["s"], ["f"]⟩

/-- The supervisor replies "already exists"; no poll replies needed. -/
def c9Env : TriggerEnv := ⟨.alreadyExists, ["s"]⟩

/-- The run input whose body raises the trigger exception for C9. -/
def c9Input : RunInput :=
  { ctx := some ⟨true, []⟩,
    prepare := ⟨none, false⟩,
    body := .error (.dagRunTrigger c9Drte),
    task := ⟨true, false, false, false, none⟩,
    triggerEnv := c9Env }

/-- Witness for C9: duplicate tolerance off, outcome `FAILED`, no
pushes. -/
theorem c9_trigger_already_exists_witness :
    (_handle_trigger_dag_run c9Drte c9Env =
       some ([Msg.triggerDagRun "other" "r1"], [],
             Msg.taskState TIState.failed, TIState.failed)) ∧
    ((run c9Input).map RunOut.state = some TIState.failed ∧
     (run c9Input).map RunOut.pushes = some []) :=
  ⟨((c9_trigger_already_exists c9Drte c9Env rfl).1).trans (by rfl),
   (c9_trigger_already_exists c9Drte c9Env rfl).2 c9Input rfl rfl rfl⟩

end TaskRunner
